import Mathlib

/-
Shallow embedding of the Garden Planner core (repository krisvanlog/garden-planner,
file src/unnamed/part_000, `GardenPlanner` React component, lines 232-700).

Embedding conventions:
* JavaScript numbers are embedded as `Rat` (all the arithmetic the core performs
  is +, -, *, / and comparisons; the concrete inputs of the spec are exact in `Rat`).
* `Date.now()` is embedded as an explicit `Int` parameter `now` passed to the
  handlers that call it.
* React `useState` state is collected into the record `GardenState`; an event
  handler becomes a function `GardenState → GardenState` (its `setX(v)` calls
  become field updates).  The auto-save `useEffect` at part_000:283
  (`useEffect(() => { if (currentProject) saveData(); }, [markers,
  globalJournalEntries, currentProject])`) is embedded as `autoSaveEffect`,
  applied after an event handler whenever that handler wrote one of the three
  dependencies (each such write allocates a fresh array/object in the source, so
  the effect re-runs exactly then).
* `saveData` (part_000:297) is embedded by its synchronous part: rebuilding the
  project list and `setProjects`.  The POST to the persistence collaborator and
  the adoption of the echoed list (`setProjects(data.data)`) are external;
  server.js `cleanProjectData` only rewrites image data-URLs to file paths and
  preserves every id and coordinate, so the echo is the identity on the fields
  modelled here.
* `Math.sqrt(d) < r` (resp. `> r`) for `d ≥ 0, r ≥ 0` is embedded as the
  equivalent `d < r*r` (resp. `d > r*r`); the bridge to the real square root is
  proved in `withinRadius_iff_sqrt_lt` and `farther_iff_sqrt_gt`.
* `getPointerPos` (part_000:354) reads the DOM (`canvas.getBoundingClientRect`,
  `canvas.width/height`); those reads are passed as explicit arguments, making
  the function's freedom from hidden state explicit.
* Canvas drawing (the render `useEffect`, part_000:436-466) is embedded as a
  function producing a `Surface` (raster dimensions plus the ordered list of
  draw commands); `ctx.measureText` is an external font metric passed as a
  function `String → Rat`.
* Pure-UI text fields of the detail editor (noteText, noteDescription, photo
  scratch lists, …) are UI chrome outside the core the claims are about and are
  not part of `GardenState`; `selectedItem` and `showNoteDialog` are kept
  because `deleteMarker` and `startRelocation` read them.
-/

namespace GardenPlanner

/-- `tool` state (part_000:237): either placing markers or panning. -/
inductive Tool where
  | marker
  | pan
deriving DecidableEq, Repr

/-- A point `{x, y}` as used for `pan` and `panStart` (part_000:266,268). -/
structure Pt where
  x : Rat
  y : Rat
deriving DecidableEq, Repr

/-- Journal entry `{id, timestamp, text, photos}` (part_000:430,433). -/
structure JournalEntry where
  id : Int
  timestamp : Int
  text : String
  photos : List String
deriving DecidableEq, Repr

/-- Plant-lookup result stored on a marker as an opaque blob (part_000:144-147). -/
structure ExternalReference where
  source : String
  displayName : String
  scientificName : String
  imageUrl : Option String
  infoUrl : String
deriving DecidableEq, Repr

/-- Marker record as created at part_000:399. -/
structure Marker where
  id : Int
  x : Rat
  y : Rat
  label : String
  description : String
  photos : List String
  journalEntries : List JournalEntry
  linkedPlant : Option ExternalReference
  color : String
deriving DecidableEq, Repr

/-- Project record as created at part_000:322. -/
structure Project where
  id : Int
  name : String
  image : String
  markers : List Marker
  globalJournalEntries : List JournalEntry
deriving DecidableEq, Repr

/-- The `useState` slice of the `GardenPlanner` component that the core
operations read or write (part_000:234-272). -/
structure GardenState where
  projects : List Project
  currentProject : Option Project
  markers : List Marker
  tool : Tool
  selectedItem : Option Marker
  showNoteDialog : Bool
  globalJournalEntries : List JournalEntry
  scale : Rat
  pan : Pt
  isPanning : Bool
  panStart : Pt
  relocatingMarker : Option Marker
  imageLoaded : Bool
deriving DecidableEq, Repr

/-- Result of `getPointerPos` (part_000:361): image-space point plus the raw
client coordinates. -/
structure Pos where
  x : Rat
  y : Rat
  clientX : Rat
  clientY : Rat
deriving DecidableEq, Repr

/-- `getPointerPos` (part_000:354-362).  The DOM reads are explicit arguments:
`rectLeft/rectTop/rectWidth/rectHeight` come from
`canvas.getBoundingClientRect()` (the CSS/layout box) and
`canvasWidth/canvasHeight` from `canvas.width/height` (the intrinsic raster
size, equal to the base image's natural size once loaded, part_000:513).
A pure function of its arguments: no other state is read. -/
def getPointerPos (clientX clientY rectLeft rectTop rectWidth rectHeight
    canvasWidth canvasHeight : Rat) : Pos :=
  let scaleX := canvasWidth / rectWidth
  let scaleY := canvasHeight / rectHeight
  { x := (clientX - rectLeft) * scaleX
  , y := (clientY - rectTop) * scaleY
  , clientX := clientX
  , clientY := clientY }

/-- The hit predicate of the click hit test (part_000:396):
`Math.sqrt(dx*dx + dy*dy) < radius`, embedded squared. -/
def withinRadius (m : Marker) (px py radius : Rat) : Bool :=
  let dx := m.x - px
  let dy := m.y - py
  dx * dx + dy * dy < radius * radius

/-- The spec's `findNear(imagePoint, radius)`: the hit test of
`handleCanvasClick` (part_000:396), `markers.find(m => dist < radius)`. -/
def findNear (ms : List Marker) (px py radius : Rat) : Option Marker :=
  ms.find? fun m => withinRadius m px py radius

/-- `handleStart` (part_000:364-372).  `pos` is `getPointerPos(e)`.
`Math.sqrt(dx*dx+dy*dy) > 50` is embedded as `dx*dx+dy*dy > 50*50`. -/
def handleStart (pos : Pos) (s : GardenState) : GardenState :=
  if s.currentProject.isNone then s else
  match s.relocatingMarker with
  | some rm =>
      let dx := rm.x - pos.x
      let dy := rm.y - pos.y
      if dx * dx + dy * dy > 50 * 50 then
        { s with isPanning := true
               , panStart := { x := pos.clientX - s.pan.x, y := pos.clientY - s.pan.y } }
      else s
  | none =>
      if s.tool = Tool.pan then
        { s with isPanning := true
               , panStart := { x := pos.clientX - s.pan.x, y := pos.clientY - s.pan.y } }
      else s

/-- `handleMove` (part_000:374-388).  `pos` is `getPointerPos(e)`; its
`clientX/clientY` fields are the raw client coordinates the pan branch re-reads
from the event. -/
def handleMove (pos : Pos) (s : GardenState) : GardenState :=
  if s.currentProject.isNone then s else
  match s.relocatingMarker with
  | some rm =>
      if !s.isPanning then
        let updated : Marker := { rm with x := pos.x, y := pos.y }
        { s with relocatingMarker := some updated
               , markers := s.markers.map fun m => if m.id = updated.id then updated else m }
      else
        { s with pan := { x := pos.clientX - s.panStart.x, y := pos.clientY - s.panStart.y } }
  | none =>
      if s.isPanning then
        { s with pan := { x := pos.clientX - s.panStart.x, y := pos.clientY - s.panStart.y } }
      else s

/-- `handleEnd` (part_000:390). -/
def handleEnd (s : GardenState) : GardenState :=
  { s with isPanning := false }

/-- `openMarkerDialog` (part_000:407-409), restricted to the modelled fields
(the note/photo scratch copies are UI chrome). -/
def openMarkerDialog (m : Marker) (s : GardenState) : GardenState :=
  { s with selectedItem := some m, showNoteDialog := true }

/-- The marker literal built in `handleCanvasClick` (part_000:399);
`count` is `markers.length` at creation time, `now` is `Date.now()`. -/
def newMarker (now : Int) (pos : Pos) (count : Nat) : Marker :=
  { id := now
  , x := pos.x
  , y := pos.y
  , label := "Plant " ++ toString (count + 1)
  , description := ""
  , photos := []
  , journalEntries := []
  , linkedPlant := none
  , color := "#10b981" }

/-- `handleCanvasClick` (part_000:392-402). -/
def handleCanvasClick (pos : Pos) (now : Int) (s : GardenState) : GardenState :=
  if s.currentProject.isNone then s else
  if s.relocatingMarker.isSome then s else
  match findNear s.markers pos.x pos.y 30 with
  | some hit =>
      if s.tool ≠ Tool.pan then openMarkerDialog hit s else s
  | none =>
      if s.tool = Tool.marker then
        let nm := newMarker now pos s.markers.length
        openMarkerDialog nm { s with markers := s.markers ++ [nm] }
      else s

/-- `handleZoom` (part_000:404): clamp `scale + delta` to `[0.2, 5]`. -/
def handleZoom (delta : Rat) (s : GardenState) : GardenState :=
  { s with scale := max (2 / 10) (min 5 (s.scale + delta)) }

/-- `startRelocation` (part_000:410). -/
def startRelocation (s : GardenState) : GardenState :=
  match s.selectedItem with
  | some sel =>
      { s with relocatingMarker := some sel, showNoteDialog := false, selectedItem := none }
  | none => s

/-- `finishRelocation(save)` (part_000:411-417).  On cancel it looks the marker
up in the last persisted snapshot
(`projects.find(p => p.id === currentProject.id)?.markers.find(...)`) and
writes that version back.  The relocation UI that invokes this is only mounted
while `relocatingMarker` is set, and then `currentProject` is set too, so the
`currentProject.id` dereference cannot throw; the impossible combinations are
mapped to the identity. -/
def finishRelocation (save : Bool) (s : GardenState) : GardenState :=
  let s1 :=
    match save, s.relocatingMarker, s.currentProject with
    | false, some rm, some cp =>
        let original : Option Marker :=
          (s.projects.find? fun (p : Project) => p.id = cp.id).bind
            fun (p : Project) => p.markers.find? fun (m : Marker) => m.id = rm.id
        match original with
        | some orig =>
            { s with markers := s.markers.map fun (m : Marker) => if m.id = rm.id then orig else m }
        | none => s
    | _, _, _ => s
  { s1 with relocatingMarker := none }

/-- `deleteMarker` (part_000:419).  It is invoked from the detail editor, where
`selectedItem` is set; with `selectedItem` null the source would throw on
`selectedItem.id`, so that combination is mapped to the identity. -/
def deleteMarker (s : GardenState) : GardenState :=
  match s.selectedItem with
  | some sel =>
      { s with markers := s.markers.filter fun m => m.id ≠ sel.id
             , showNoteDialog := false
             , selectedItem := none }
  | none => s

/-- `loadProject` (part_000:306-314), the spec's `switchProject`.
(`project.markers || []` and `project.globalJournalEntries || []` default a
field missing from the stored JSON; in the typed model the fields are always
present.) -/
def loadProject (project : Project) (s : GardenState) : GardenState :=
  { s with currentProject := some project
         , markers := project.markers
         , globalJournalEntries := project.globalJournalEntries
         , scale := 1
         , pan := { x := 0, y := 0 }
         , relocatingMarker := none
         , imageLoaded := false }

/-- The `onLoad` handler of the base image (part_000:511-519): once the image
has decoded, the canvas is sized to its natural dimensions and `imageLoaded`
is set. -/
def imageOnLoad (s : GardenState) : GardenState :=
  { s with imageLoaded := true }

/-- Synchronous part of `saveData` (part_000:297-304): rebuild the project list,
replacing the current project's entry by `{ ...currentProject, markers,
globalJournalEntries }`, and `setProjects` it.  The POST and the echoed
`setProjects(data.data)` are the external persistence collaborator; server.js
`cleanProjectData` preserves every id and coordinate, so the echo is the
identity on the modelled fields. -/
def saveData (s : GardenState) : GardenState :=
  match s.currentProject with
  | some cp =>
      { s with projects := s.projects.map fun p =>
          if p.id = cp.id then
            { cp with markers := s.markers, globalJournalEntries := s.globalJournalEntries }
          else p }
  | none => s

/-- The auto-save effect (part_000:283):
`useEffect(() => { if (currentProject) saveData(); }, [markers,
globalJournalEntries, currentProject])`.  The React runtime runs this after
every commit in which one of the three dependencies was written (each such
write allocates a fresh array in the source, so reference equality fails
exactly then). -/
def autoSaveEffect (s : GardenState) : GardenState :=
  if s.currentProject.isSome then saveData s else s

/-- `MARKER_RADIUS` (part_000:449). -/
def MARKER_RADIUS : Rat := 8

/-- `LABEL_PADDING` (part_000:450). -/
def LABEL_PADDING : Rat := 6

/-- One canvas drawing primitive issued by the render effect
(part_000:452-465): the filled/stroked marker circle, the rounded label
rectangle, and the label text. -/
inductive DrawCmd where
  | glyph (x y radius : Rat) (color : String)
  | labelBox (x y width height : Rat)
  | labelText (text : String) (x y : Rat)
deriving DecidableEq, Repr

/-- The commands drawn for one marker by the body of `markers.forEach`
(part_000:452-465).  `measure` is `ctx.measureText(·).width`, an external font
metric; `canvasWidth` is `canvas.width`, which at this point equals the image's
`naturalWidth` (part_000:445). -/
def drawMarker (relocating : Option Marker) (canvasWidth : Rat)
    (measure : String → Rat) (m : Marker) : List DrawCmd :=
  let isMoving : Bool :=
    match relocating with
    | some rm => rm.id = m.id
    | none => false
  let textWidth := measure m.label
  let boxWidth := textWidth + LABEL_PADDING * 2
  let boxHeight : Rat := 26
  let labelX0 := m.x + 14
  let labelY := m.y - 13
  let labelX := if labelX0 + boxWidth > canvasWidth then m.x - 14 - boxWidth else labelX0
  [ DrawCmd.glyph m.x m.y (if isMoving then 12 else MARKER_RADIUS)
      (if isMoving then "#fbbf24" else m.color)
  , DrawCmd.labelBox labelX labelY boxWidth boxHeight
  , DrawCmd.labelText m.label (labelX + LABEL_PADDING) (labelY + boxHeight / 2) ]

/-- The `imageRef.current` DOM element as the render effect reads it:
`complete` and the intrinsic (natural) dimensions. -/
structure ImageElem where
  complete : Bool
  naturalWidth : Rat
  naturalHeight : Rat
deriving DecidableEq, Repr

/-- The canvas raster surface: its pixel dimensions and the ordered list of
draw commands it currently holds. -/
structure Surface where
  width : Rat
  height : Rat
  commands : List DrawCmd
deriving DecidableEq, Repr

/-- The readiness guard of the render effect (part_000:443):
`img && img.complete && imageLoaded`. -/
def imageReady (s : GardenState) (img : Option ImageElem) : Bool :=
  match img with
  | none => false
  | some im => im.complete && s.imageLoaded

/-- The render `useEffect` (part_000:436-466).  Given the component state, the
image element (`imageRef.current`, `none` when unmounted), the font metric and
the current surface, it returns the surface after the effect ran: unchanged
when a guard bails out (part_000:437 and 443), otherwise resized to the image's
natural dimensions, cleared, and redrawn with every marker in collection order.
The effect writes no component state.  (`!canvasRef.current` at part_000:437 is
the case in which there is no surface to pass at all.) -/
def renderEffect (s : GardenState) (img : Option ImageElem)
    (measure : String → Rat) (surf : Surface) : Surface :=
  if s.currentProject.isNone then surf else
  match img with
  | none => surf
  | some im =>
      if !im.complete || !s.imageLoaded then surf
      else
        { width := im.naturalWidth
        , height := im.naturalHeight
        , commands := s.markers.flatMap (drawMarker s.relocatingMarker im.naturalWidth measure) }

/-!  Concrete fixtures used by the evaluation theorems below. -/

/-- The initial `useState` values of the component (part_000:234-272). -/
def initialState : GardenState :=
  { projects := []
  , currentProject := none
  , markers := []
  , tool := Tool.marker
  , selectedItem := none
  , showNoteDialog := false
  , globalJournalEntries := []
  , scale := 1
  , pan := { x := 0, y := 0 }
  , isPanning := false
  , panStart := { x := 0, y := 0 }
  , relocatingMarker := none
  , imageLoaded := false }

/-- A pointer position whose image-space and client coordinates coincide
(identity layout: the canvas is displayed at its intrinsic size at the
viewport origin). -/
def posAt (x y : Rat) : Pos :=
  { x := x, y := y, clientX := x, clientY := y }

/-- A marker fixture with the given id and position and default fields. -/
def mkMarker (id : Int) (x y : Rat) : Marker :=
  { id := id
  , x := x
  , y := y
  , label := "Plant 1"
  , description := ""
  , photos := []
  , journalEntries := []
  , linkedPlant := none
  , color := "#10b981" }

/-- An empty project fixture. -/
def gardenProj : Project :=
  { id := 7, name := "garden", image := "base.jpg", markers := [], globalJournalEntries := [] }

/-- The state after loading `gardenProj` (the auto-save effect has run, since
`loadProject` writes all three of its dependencies). -/
def loadedState : GardenState :=
  autoSaveEffect (loadProject gardenProj { initialState with projects := [gardenProj] })

/-- The marker created by the first canvas click of the scenarios below:
`handleCanvasClick` at (50,50) on an empty store with `Date.now() = 1000`
builds `newMarker 1000 (posAt 50 50) 0` (label "Plant 1"). -/
def relocatedMarkerFx : Marker := newMarker 1000 (posAt 50 50) 0

/-- The state at the start of the relocation scenario of the spec's cancel
test: load `gardenProj`, place a marker at (50,50) by a canvas click at
`Date.now() = 1000` (auto-save runs, so the persisted snapshot holds (50,50)),
then press Relocate in the detail editor. -/
def cancelScenarioStart : GardenState :=
  startRelocation (autoSaveEffect (handleCanvasClick (posAt 50 50) 1000 loadedState))

/-- Continuation of `cancelScenarioStart`: drag the pending marker through
(60,60), (70,40), (55,55) — the auto-save effect firing after each move, since
each move writes `markers` — then cancel the relocation. -/
def cancelScenarioFinal : GardenState :=
  let s3 := autoSaveEffect (handleMove (posAt 60 60) cancelScenarioStart)
  let s4 := autoSaveEffect (handleMove (posAt 70 40) s3)
  let s5 := autoSaveEffect (handleMove (posAt 55 55) s4)
  autoSaveEffect (finishRelocation false s5)

/-- While the marker placed at (50,50) is pending relocation, reopen its entry
from the sidebar list (part_000:564 calls `openMarkerDialog(marker)` with no
guard on `relocatingMarker`), so the detail editor's delete button is reachable
for the very marker that is mid-relocation. -/
def deleteDuringRelocationPre : GardenState :=
  openMarkerDialog relocatedMarkerFx cancelScenarioStart

/-- Continuation of `deleteDuringRelocationPre`: confirm the deletion
(auto-save runs afterwards, since `deleteMarker` writes `markers`). -/
def deleteDuringRelocation : GardenState :=
  autoSaveEffect (deleteMarker deleteDuringRelocationPre)

/-- Two marker-creating canvas clicks — at (10,10) and, after closing the
detail dialog, at (100,100), farther than the 30px hit radius from the first
marker — both happening at `Date.now() = 1000`, i.e. within one millisecond. -/
def duplicateIdScenario : GardenState :=
  let s1 := autoSaveEffect (handleCanvasClick (posAt 10 10) 1000 loadedState)
  let s2 : GardenState := { s1 with showNoteDialog := false }
  autoSaveEffect (handleCanvasClick (posAt 100 100) 1000 s2)

/-- A small surface fixture with stale dimensions and no commands. -/
def surfFx : Surface := { width := 5, height := 5, commands := [] }

/-- A decoded 200×100 image element fixture. -/
def imgFx : ImageElem := { complete := true, naturalWidth := 200, naturalHeight := 100 }

/-!  Helper lemmas shared by the claim theorems. -/

/-- `List.find?` returns the first element of the list, in order, satisfying
the predicate: the list splits as `pre ++ a :: post` with the predicate false
on all of `pre`. -/
theorem find_first_split {α : Type} (p : α → Bool) :
    ∀ (l : List α) (a : α), l.find? p = some a →
      p a = true ∧ ∃ pre post, l = pre ++ a :: post ∧ ∀ b ∈ pre, p b = false := by
  intro l
  induction l with
  | nil => intro a h; simp [List.find?] at h
  | cons x xs ih =>
    intro a h
    by_cases hx : p x = true
    · rw [List.find?_cons_of_pos _ hx] at h
      cases h
      exact ⟨hx, [], xs, rfl, by simp⟩
    · rw [List.find?_cons_of_neg _ (by simpa using hx)] at h
      obtain ⟨hpa, pre, post, heq, hpre⟩ := ih a h
      refine ⟨hpa, x :: pre, post, by simp [heq], ?_⟩
      intro b hb
      rcases List.mem_cons.mp hb with hb | hb
      · subst hb; simpa using hx
      · exact hpre b hb

/-- The squared comparison embedded for `Math.sqrt(dx*dx+dy*dy) < radius` is
equivalent to the real Euclidean-distance comparison. -/
theorem withinRadius_iff_sqrt_lt (m : Marker) (px py r : Rat) (hr : 0 < r) :
    (withinRadius m px py r = true) ↔
      Real.sqrt (((m.x - px : Rat) : Real) ^ 2 + ((m.y - py : Rat) : Real) ^ 2) < (r : Real) := by
  have h0 : (0 : Real) < (r : Real) := by exact_mod_cast hr
  rw [Real.sqrt_lt' h0]
  unfold withinRadius
  simp only [decide_eq_true_eq]
  rw [show ((m.x - px : Rat) : Real) ^ 2 + ((m.y - py : Rat) : Real) ^ 2
        = (((m.x - px) * (m.x - px) + (m.y - py) * (m.y - py) : Rat) : Real) by push_cast; ring]
  rw [show ((r : Rat) : Real) ^ 2 = ((r * r : Rat) : Real) by push_cast; ring]
  exact_mod_cast Iff.rfl

/-- The squared comparison embedded for `Math.sqrt(dx*dx+dy*dy) > r` is
equivalent to the real Euclidean-distance comparison. -/
theorem farther_iff_sqrt_gt (dx dy r : Rat) (hr : 0 ≤ r) :
    (dx * dx + dy * dy > r * r) ↔
      (r : Real) < Real.sqrt (((dx : Rat) : Real) ^ 2 + ((dy : Rat) : Real) ^ 2) := by
  have h0 : (0 : Real) ≤ (r : Real) := by exact_mod_cast hr
  rw [Real.lt_sqrt h0]
  rw [show ((dx : Rat) : Real) ^ 2 + ((dy : Rat) : Real) ^ 2
        = ((dx * dx + dy * dy : Rat) : Real) by push_cast; ring]
  rw [show ((r : Rat) : Real) ^ 2 = ((r * r : Rat) : Real) by push_cast; ring]
  exact_mod_cast Iff.rfl

/-!  Claim theorems. -/

/-- C1: evaluation of the code on the spec's own cancel scenario.  At the
moment relocation starts, the last persisted snapshot does hold the original
position (50,50) and the pending marker is at (50,50); but after dragging
through (60,60), (70,40), (55,55) and cancelling, the marker is at (55,55),
not (50,50).  The auto-save effect (part_000:283) fires on every `markers`
write, including each drag move, so the snapshot `finishRelocation(false)`
(part_000:411-417) restores from already contains the dragged position:
relocation cancel cannot restore the pre-relocation coordinates. -/
theorem relocationCancel_keeps_dragged_position :
    (cancelScenarioStart.projects.map fun p => p.markers.map fun m => (m.id, m.x, m.y))
        = [[(1000, 50, 50)]]
  ∧ (cancelScenarioStart.relocatingMarker.map fun m => (m.x, m.y)) = some (50, 50)
  ∧ cancelScenarioStart.isPanning = false
  ∧ (cancelScenarioFinal.markers.map fun m => (m.id, m.x, m.y)) = [(1000, 55, 55)]
  ∧ (cancelScenarioFinal.markers.map fun m => (m.x, m.y)) ≠ [(50, 50)]
  ∧ cancelScenarioFinal.relocatingMarker = none := by
  refine ⟨rfl, rfl, rfl, rfl, by decide, rfl⟩

/-- C2: the click/tap hit test (`findNear` at the fixed radius 30, as inlined
in `handleCanvasClick`, part_000:396) returns the first marker in collection
order whose Euclidean distance to the query point is strictly below 30 — the
list splits as `pre ++ m :: post` with every earlier marker outside the radius
— and returns no marker exactly when every marker is outside the radius; the
Boolean radius test is the real Euclidean-distance comparison.  Concretely,
with A at (100,100) inserted before B at (105,105), querying (102,102) returns
A; querying (104,104) also returns A even though B is strictly nearer there. -/
theorem findNear_first_in_order (ms : List Marker) (px py : Rat) :
    (∀ m, findNear ms px py 30 = some m →
        withinRadius m px py 30 = true ∧
        ∃ pre post, ms = pre ++ m :: post ∧ ∀ b ∈ pre, withinRadius b px py 30 = false)
  ∧ (findNear ms px py 30 = none → ∀ m ∈ ms, withinRadius m px py 30 = false)
  ∧ (∀ (m : Marker) (r : Rat), 0 < r →
      ((withinRadius m px py r = true) ↔
        Real.sqrt (((m.x - px : Rat) : Real) ^ 2 + ((m.y - py : Rat) : Real) ^ 2) < (r : Real)))
  ∧ findNear [mkMarker 1 100 100, mkMarker 2 105 105] 102 102 30 = some (mkMarker 1 100 100)
  ∧ findNear [mkMarker 1 100 100, mkMarker 2 105 105] 104 104 30 = some (mkMarker 1 100 100)
  ∧ ((mkMarker 2 105 105).x - 104) * ((mkMarker 2 105 105).x - 104)
      + ((mkMarker 2 105 105).y - 104) * ((mkMarker 2 105 105).y - 104)
    < ((mkMarker 1 100 100).x - 104) * ((mkMarker 1 100 100).x - 104)
      + ((mkMarker 1 100 100).y - 104) * ((mkMarker 1 100 100).y - 104) := by
  refine ⟨?_, ?_, ?_, ?_, ?_, ?_⟩
  · intro m h
    exact find_first_split _ ms m h
  · intro h m hm
    have := List.find?_eq_none.mp h m hm
    simpa using this
  · intro m r hr
    exact withinRadius_iff_sqrt_lt m px py r hr
  · norm_num [findNear, List.find?, withinRadius, mkMarker]
  · norm_num [findNear, List.find?, withinRadius, mkMarker]
  · norm_num [mkMarker]

/-- C2 witness: the general theorem applied to the spec's regression input —
marker A at (100,100) inserted before B at (105,105), query (102,102). -/
theorem findNear_first_in_order_witness :
    withinRadius (mkMarker 1 100 100) 102 102 30 = true ∧
    ∃ pre post, [mkMarker 1 100 100, mkMarker 2 105 105]
        = pre ++ (mkMarker 1 100 100) :: post ∧
      ∀ b ∈ pre, withinRadius b 102 102 30 = false :=
  (findNear_first_in_order [mkMarker 1 100 100, mkMarker 2 105 105] 102 102).1
    (mkMarker 1 100 100) (by norm_num [findNear, List.find?, withinRadius, mkMarker])

/-- C3 counterexample: deleting the marker that is pending relocation (reached
through the sidebar, which opens the detail editor with no guard on
`relocatingMarker`) removes it from the marker collection but does NOT return
the relocation machine to Idle: `deleteMarker` (part_000:419) never touches
`relocatingMarker`, so the dangling reference to the deleted marker is
retained. -/
theorem deleteMarker_keeps_relocation_reference :
    deleteDuringRelocation.markers = []
  ∧ deleteDuringRelocation.relocatingMarker = some relocatedMarkerFx
  ∧ deleteDuringRelocation.relocatingMarker ≠ none := by
  refine ⟨rfl, rfl, by decide⟩

/-- C3 as amended: deleting the selected marker removes every marker with its
id from the collection, closes the dialog and clears the selected reference
without throwing, and every subsequent render draws only commands of surviving
markers (so the deleted marker is omitted); but the pending-relocation
reference is left unchanged — the machine does not return to Idle and the
`relocatingMarker` reference dangles. -/
theorem deleteMarker_removes_and_keeps_relocation (s : GardenState) (sel : Marker)
    (hsel : s.selectedItem = some sel) :
    (deleteMarker s).markers = s.markers.filter (fun m => m.id ≠ sel.id)
  ∧ (deleteMarker s).selectedItem = none
  ∧ (deleteMarker s).showNoteDialog = false
  ∧ (deleteMarker s).relocatingMarker = s.relocatingMarker
  ∧ (∀ m ∈ (deleteMarker s).markers, m.id ≠ sel.id)
  ∧ (∀ (img : Option ImageElem) (measure : String → Rat) (surf : Surface),
       ∀ c ∈ (renderEffect (deleteMarker s) img measure surf).commands,
         c ∈ surf.commands ∨
         ∃ m0 ∈ (deleteMarker s).markers, ∃ im, img = some im ∧
           c ∈ drawMarker (deleteMarker s).relocatingMarker im.naturalWidth measure m0) := by
  have hd : deleteMarker s
      = { s with markers := s.markers.filter fun m => m.id ≠ sel.id
               , showNoteDialog := false
               , selectedItem := none } := by
    simp [deleteMarker, hsel]
  refine ⟨by rw [hd], by rw [hd], by rw [hd], by rw [hd], ?_, ?_⟩
  · intro m hm
    rw [hd] at hm
    have := List.of_mem_filter hm
    simpa using this
  · intro img measure surf c hc
    unfold renderEffect at hc
    by_cases hcp : (deleteMarker s).currentProject.isNone
    · rw [if_pos hcp] at hc
      exact Or.inl hc
    · rw [if_neg hcp] at hc
      match img, hc with
      | none, hc => exact Or.inl hc
      | some im, hc =>
          dsimp only at hc
          by_cases hready : !im.complete || !(deleteMarker s).imageLoaded
          · rw [if_pos hready] at hc
            exact Or.inl hc
          · rw [if_neg hready] at hc
            simp only [Surface.commands] at hc
            obtain ⟨m0, hm0, hcm⟩ := List.mem_flatMap.mp hc
            exact Or.inr ⟨m0, hm0, im, rfl, hcm⟩

/-- C3 witness: the amended theorem applied to the concrete
delete-while-relocating scenario. -/
theorem deleteMarker_removes_and_keeps_relocation_witness :
    (deleteMarker deleteDuringRelocationPre).markers
        = deleteDuringRelocationPre.markers.filter (fun m => m.id ≠ relocatedMarkerFx.id)
  ∧ (deleteMarker deleteDuringRelocationPre).selectedItem = none
  ∧ (deleteMarker deleteDuringRelocationPre).relocatingMarker
        = deleteDuringRelocationPre.relocatingMarker :=
  ⟨(deleteMarker_removes_and_keeps_relocation deleteDuringRelocationPre relocatedMarkerFx rfl).1,
   (deleteMarker_removes_and_keeps_relocation deleteDuringRelocationPre relocatedMarkerFx rfl).2.1,
   (deleteMarker_removes_and_keeps_relocation deleteDuringRelocationPre relocatedMarkerFx
      rfl).2.2.2.1⟩

/-- C4: from a non-panning state with a marker pending relocation and a
project loaded, a pointer-down within 50 image-pixels of the marker (squared
comparison; the last conjunct is the bridge to the real Euclidean distance)
leaves the machine non-panning, and a subsequent pointer-move drags the
marker: its x,y become the pointer's image-space position and the pan offset
is untouched.  A pointer-down strictly farther than 50 image-pixels sets
`isPanning`, and a subsequent pointer-move updates the pan offset by the
client-coordinate delta while leaving every marker unchanged. -/
theorem handleStart_grab_or_pan (s : GardenState) (pos q : Pos) (rm : Marker)
    (hcp : s.currentProject.isSome = true)
    (hrm : s.relocatingMarker = some rm)
    (hidle : s.isPanning = false) :
    ((rm.x - pos.x) * (rm.x - pos.x) + (rm.y - pos.y) * (rm.y - pos.y) ≤ 50 * 50 →
       (handleStart pos s).isPanning = false
     ∧ (handleMove q (handleStart pos s)).markers
         = s.markers.map (fun m => if m.id = rm.id then { rm with x := q.x, y := q.y } else m)
     ∧ (handleMove q (handleStart pos s)).relocatingMarker = some { rm with x := q.x, y := q.y }
     ∧ (handleMove q (handleStart pos s)).pan = s.pan)
  ∧ ((rm.x - pos.x) * (rm.x - pos.x) + (rm.y - pos.y) * (rm.y - pos.y) > 50 * 50 →
       (handleStart pos s).isPanning = true
     ∧ (handleMove q (handleStart pos s)).markers = s.markers
     ∧ (handleMove q (handleStart pos s)).relocatingMarker = some rm
     ∧ (handleMove q (handleStart pos s)).pan
         = { x := q.clientX - (pos.clientX - s.pan.x), y := q.clientY - (pos.clientY - s.pan.y) })
  ∧ ((rm.x - pos.x) * (rm.x - pos.x) + (rm.y - pos.y) * (rm.y - pos.y) > 50 * 50 ↔
       (50 : Real) < Real.sqrt (((rm.x - pos.x : Rat) : Real) ^ 2
         + ((rm.y - pos.y : Rat) : Real) ^ 2)) := by
  obtain ⟨cp, hcp'⟩ := Option.isSome_iff_exists.mp hcp
  refine ⟨?_, ?_, ?_⟩
  · intro hle
    have hcond : ¬ ((rm.x - pos.x) * (rm.x - pos.x) + (rm.y - pos.y) * (rm.y - pos.y) > 50 * 50) :=
      not_lt.mpr hle
    have hstart : handleStart pos s = s := by
      simp [handleStart, hcp', hrm, hcond]
    rw [hstart]
    refine ⟨hidle, ?_, ?_, ?_⟩ <;> simp [handleMove, hcp', hrm, hidle]
  · intro hgt
    have hstart : handleStart pos s
        = { s with isPanning := true
                 , panStart := { x := pos.clientX - s.pan.x, y := pos.clientY - s.pan.y } } := by
      simp [handleStart, hcp', hrm, hgt]
    rw [hstart]
    refine ⟨rfl, ?_, ?_, ?_⟩ <;> simp [handleMove, hcp', hrm]
  · exact farther_iff_sqrt_gt (rm.x - pos.x) (rm.y - pos.y) 50 (by norm_num)

/-- C4 witness: in the concrete relocation scenario, a pointer-down at the
marker's own position (distance 0) leaves the machine non-panning and the next
move drags the marker to (60,60); a pointer-down at (120,50) (distance 70)
switches to panning. -/
theorem handleStart_grab_or_pan_witness :
    (handleStart (posAt 50 50) cancelScenarioStart).isPanning = false
  ∧ (handleMove (posAt 60 60) (handleStart (posAt 50 50) cancelScenarioStart)).relocatingMarker
        = some { relocatedMarkerFx with x := 60, y := 60 }
  ∧ (handleStart (posAt 120 50) cancelScenarioStart).isPanning = true := by
  have h1 := (handleStart_grab_or_pan cancelScenarioStart (posAt 50 50) (posAt 60 60)
      relocatedMarkerFx rfl rfl rfl).1 (by norm_num [relocatedMarkerFx, newMarker, posAt])
  have h2 := (handleStart_grab_or_pan cancelScenarioStart (posAt 120 50) (posAt 60 60)
      relocatedMarkerFx rfl rfl rfl).2.1 (by norm_num [relocatedMarkerFx, newMarker, posAt])
  exact ⟨h1.1, h1.2.2.1, h2.1⟩

/-- C5: `loadProject` (the spec's `switchProject`) replaces the marker store
by exactly the new project's markers and the journal by its journal, resets
the view transform to scale 1 and pan (0,0), clears any pending relocation,
and marks the base image not yet loaded; the image's own `onLoad` handler is
what later sets the loaded flag. -/
theorem loadProject_resets (s : GardenState) (p : Project) :
    (loadProject p s).currentProject = some p
  ∧ (loadProject p s).markers = p.markers
  ∧ (loadProject p s).globalJournalEntries = p.globalJournalEntries
  ∧ (loadProject p s).scale = 1
  ∧ (loadProject p s).pan = { x := 0, y := 0 }
  ∧ (loadProject p s).relocatingMarker = none
  ∧ (loadProject p s).imageLoaded = false
  ∧ (imageOnLoad (loadProject p s)).imageLoaded = true :=
  ⟨rfl, rfl, rfl, rfl, rfl, rfl, rfl, rfl⟩

/-- C6: the label drawn for a marker is a box of width `measured text width +
12` and height 26 anchored at `(x+14, y-13)`, except that when
`x + 14 + (width) > imageWidth` the anchor flips to `(x - 14 - width, y-13)`.
Concretely, on a 200-wide image with the marker at x=190 and measured label
width 50, the anchor is 114, which is strictly less than 190 (not 204). -/
theorem drawMarker_label_geometry (reloc : Option Marker) (W : Rat)
    (measure : String → Rat) (m : Marker) :
    ((drawMarker reloc W measure m).get? 1
      = some (DrawCmd.labelBox
          (if m.x + 14 + (measure m.label + 12) > W
            then m.x - 14 - (measure m.label + 12) else m.x + 14)
          (m.y - 13) (measure m.label + 12) 26))
  ∧ ((drawMarker none 200 (fun _ => 50) (mkMarker 1 190 20)).get? 1
      = some (DrawCmd.labelBox 114 7 62 26))
  ∧ (114 : Rat) < 190 := by
  refine ⟨?_, ?_, by norm_num⟩
  · have hpad : LABEL_PADDING * 2 = (12 : Rat) := by norm_num [LABEL_PADDING]
    simp only [drawMarker, hpad, List.get?]
  · simp only [drawMarker, mkMarker, LABEL_PADDING, List.get?]
    norm_num

/-- C7: `getPointerPos` computes exactly
`((clientX - rect.left) * intrinsicW / displayW,
  (clientY - rect.top) * intrinsicH / displayH)` for every device point and
every non-degenerate display rect / intrinsic size pair, and it is linear in
the CSS-to-intrinsic scale ratio: multiplying both intrinsic dimensions by `k`
(e.g. doubling, `k = 2`) multiplies the reported offsets from the origin by
`k`.  It is a function of its arguments only — the pan/zoom view transform is
not among them, so the mapping is independent of (and happens before) that
transform — and it forwards the raw client coordinates unchanged. -/
theorem getPointerPos_formula_and_linear
    (clientX clientY rectLeft rectTop rectW rectH intW intH k : Rat)
    (_hW : 0 < rectW) (_hH : 0 < rectH) :
    ((getPointerPos clientX clientY rectLeft rectTop rectW rectH intW intH).x
        = (clientX - rectLeft) * intW / rectW
     ∧ (getPointerPos clientX clientY rectLeft rectTop rectW rectH intW intH).y
        = (clientY - rectTop) * intH / rectH)
  ∧ ((getPointerPos clientX clientY rectLeft rectTop rectW rectH (k * intW) (k * intH)).x
        = k * (getPointerPos clientX clientY rectLeft rectTop rectW rectH intW intH).x
     ∧ (getPointerPos clientX clientY rectLeft rectTop rectW rectH (k * intW) (k * intH)).y
        = k * (getPointerPos clientX clientY rectLeft rectTop rectW rectH intW intH).y)
  ∧ ((getPointerPos clientX clientY rectLeft rectTop rectW rectH intW intH).clientX = clientX
     ∧ (getPointerPos clientX clientY rectLeft rectTop rectW rectH intW intH).clientY
        = clientY) := by
  refine ⟨⟨?_, ?_⟩, ⟨?_, ?_⟩, rfl, rfl⟩ <;>
    simp only [getPointerPos] <;> ring

/-- C7 witness: the theorem applied to a concrete point and a concrete
non-degenerate rect (display 4×2, intrinsic 8×6, scale factor 3). -/
theorem getPointerPos_formula_and_linear_witness :
    (getPointerPos 10 20 2 4 4 2 8 6).x = (10 - 2) * 8 / 4
  ∧ (getPointerPos 10 20 2 4 4 2 (3 * 8) (3 * 6)).x
        = 3 * (getPointerPos 10 20 2 4 4 2 8 6).x := by
  have h := getPointerPos_formula_and_linear 10 20 2 4 4 2 8 6 3 (by norm_num) (by norm_num)
  exact ⟨h.1.1, h.2.1.1⟩

/-- C8: whenever the base image is not ready — no image element, image not
`complete`, or the `imageLoaded` flag unset — the render effect is a deferred
no-op: the surface (dimensions and commands alike) is returned unchanged and
no error is raised (the function is total).  Conversely, any render attempt
that changes the surface at all can only happen with a current project and a
ready, decoded image — marker drawing occurs only once the image is ready.
The effect writes no component state by construction (its type returns only
the surface). -/
theorem renderEffect_noop_when_not_ready (s : GardenState) (img : Option ImageElem)
    (measure : String → Rat) (surf : Surface) :
    (imageReady s img = false → renderEffect s img measure surf = surf)
  ∧ (renderEffect s img measure surf ≠ surf →
       imageReady s img = true ∧ s.currentProject.isSome = true ∧ s.imageLoaded = true) := by
  constructor
  · intro hnr
    unfold renderEffect
    by_cases hcp : s.currentProject.isNone
    · simp [hcp]
    · simp only [hcp, if_false]
      match img, hnr with
      | none, _ => rfl
      | some im, hnr =>
          unfold imageReady at hnr
          simp only [Bool.and_eq_false_iff] at hnr
          rcases hnr with h | h <;> simp [h]
  · intro hne
    unfold renderEffect at hne
    by_cases hcp : s.currentProject.isNone
    · simp [hcp] at hne
    · simp only [hcp, if_false] at hne
      match img, hne with
      | none, hne => exact absurd rfl hne
      | some im, hne =>
          by_cases hc : im.complete
          · by_cases hl : s.imageLoaded
            · refine ⟨by simp [imageReady, hc, hl], ?_, hl⟩
              cases h : s.currentProject with
              | none => rw [h] at hcp; exact absurd rfl hcp
              | some cp => simp
            · simp [hc, hl] at hne
          · simp [hc] at hne

/-- C8 witness: in the concrete relocation scenario the image has not finished
decoding (`imageLoaded` is false, reset by `loadProject`), so a render attempt
with a decoded-but-unflagged image element leaves the surface fixture
untouched. -/
theorem renderEffect_noop_when_not_ready_witness :
    renderEffect cancelScenarioStart (some imgFx) (fun _ => 50) surfFx = surfFx :=
  (renderEffect_noop_when_not_ready cancelScenarioStart (some imgFx) (fun _ => 50) surfFx).1 rfl

/-- C9 counterexample: marker ids are `Date.now()` (part_000:399), so two
marker-creating clicks within the same millisecond — both with
`Date.now() = 1000` — produce two distinct markers carrying the SAME id: id
collisions can occur within a session, and ids are not unique within the
project. -/
theorem markerIds_collide_same_millisecond :
    duplicateIdScenario.markers.map Marker.id = [1000, 1000]
  ∧ ¬ duplicateIdScenario.markers.Pairwise (fun a b => a.id ≠ b.id) := by
  have hfar : withinRadius (newMarker 1000 (posAt 10 10) 0) 100 100 30 = false := by
    norm_num [withinRadius, newMarker, posAt]
  have hmk : duplicateIdScenario.markers
      = [newMarker 1000 (posAt 10 10) 0, newMarker 1000 (posAt 100 100) 1] := by
    simp only [duplicateIdScenario, autoSaveEffect, saveData, handleCanvasClick, findNear,
      loadProject, initialState, gardenProj, posAt, openMarkerDialog, loadedState,
      List.find?, hfar]
    norm_num [hfar, withinRadius, newMarker, posAt]
  rw [hmk]
  constructor
  · rfl
  · simp [List.pairwise_cons, newMarker]

/-- C9 as amended: a marker-creating click appends a marker whose id is the
creation timestamp `Date.now()`; two create operations with distinct
timestamps therefore get distinct ids, but nothing prevents two creations in
the same millisecond from colliding. -/
theorem createdMarker_id_is_timestamp (s : GardenState) (pos : Pos) (now t1 t2 : Int)
    (hcp : s.currentProject.isSome = true)
    (hrel : s.relocatingMarker = none)
    (hmiss : findNear s.markers pos.x pos.y 30 = none)
    (htool : s.tool = Tool.marker) :
    (handleCanvasClick pos now s).markers = s.markers ++ [newMarker now pos s.markers.length]
  ∧ (newMarker now pos s.markers.length).id = now
  ∧ (t1 ≠ t2 → (newMarker t1 pos s.markers.length).id ≠ (newMarker t2 pos s.markers.length).id) := by
  obtain ⟨cp, hcp'⟩ := Option.isSome_iff_exists.mp hcp
  refine ⟨?_, rfl, fun h => h⟩
  simp [handleCanvasClick, hcp', hrel, hmiss, htool, openMarkerDialog]

/-- C9 witness: the amended theorem applied to the freshly loaded project and
a click at (10,10) with timestamps 1000 and 1001. -/
theorem createdMarker_id_is_timestamp_witness :
    (handleCanvasClick (posAt 10 10) 1000 loadedState).markers
        = loadedState.markers ++ [newMarker 1000 (posAt 10 10) loadedState.markers.length]
  ∧ (newMarker 1000 (posAt 10 10) loadedState.markers.length).id = 1000
  ∧ (newMarker 1000 (posAt 10 10) loadedState.markers.length).id
        ≠ (newMarker 1001 (posAt 10 10) loadedState.markers.length).id := by
  have h := createdMarker_id_is_timestamp loadedState (posAt 10 10) 1000 1000 1001
    rfl rfl rfl rfl
  exact ⟨h.1, h.2.1, h.2.2 (by decide)⟩

/-- C10: while a marker is pending relocation and the machine is not panning
(and a project is loaded), a pointer-move — with no hypothesis that any
pointer-down happened or that any explicit drag state was entered — sets the
pending marker's x,y to the pointer's image-space position, both in the
pending-relocation reference and in the marker store, and leaves the pan
offset untouched: merely moving the pointer across the canvas relocates the
pending marker. -/
theorem handleMove_relocates_without_pointer_down (s : GardenState) (pos : Pos) (rm : Marker)
    (hcp : s.currentProject.isSome = true)
    (hrm : s.relocatingMarker = some rm)
    (hpan : s.isPanning = false) :
    (handleMove pos s).relocatingMarker = some { rm with x := pos.x, y := pos.y }
  ∧ (handleMove pos s).markers
      = s.markers.map (fun m => if m.id = rm.id then { rm with x := pos.x, y := pos.y } else m)
  ∧ (∀ m ∈ (handleMove pos s).markers, m.id = rm.id → m.x = pos.x ∧ m.y = pos.y)
  ∧ (handleMove pos s).pan = s.pan := by
  obtain ⟨cp, hcp'⟩ := Option.isSome_iff_exists.mp hcp
  have hmv : handleMove pos s
      = { s with relocatingMarker := some { rm with x := pos.x, y := pos.y }
               , markers := s.markers.map fun m =>
                   if m.id = rm.id then { rm with x := pos.x, y := pos.y } else m } := by
    simp [handleMove, hcp', hrm, hpan]
  rw [hmv]
  refine ⟨rfl, rfl, ?_, rfl⟩
  intro m hm hid
  obtain ⟨a, _, ha⟩ := List.mem_map.mp hm
  by_cases h : a.id = rm.id
  · rw [if_pos h] at ha
    rw [← ha]
    exact ⟨rfl, rfl⟩
  · rw [if_neg h] at ha
    rw [← ha] at hid
    exact absurd hid h

/-- C10 witness: in the concrete relocation scenario — where no pointer-down
has occurred since relocation started — a bare pointer-move to (60,60) moves
the pending marker there and leaves the pan offset unchanged. -/
theorem handleMove_relocates_without_pointer_down_witness :
    (handleMove (posAt 60 60) cancelScenarioStart).relocatingMarker
        = some { relocatedMarkerFx with x := 60, y := 60 }
  ∧ (handleMove (posAt 60 60) cancelScenarioStart).pan = cancelScenarioStart.pan := by
  have h := handleMove_relocates_without_pointer_down cancelScenarioStart (posAt 60 60)
    relocatedMarkerFx rfl rfl rfl
  exact ⟨h.1, h.2.2.2⟩

end GardenPlanner
